import Mathlib

/-!
Verification of the document-analysis engine of `app/services/document_analyzer.py`
(class `DocumentAnalyzer`).

Texts are modelled as `List Char` (Python `str` is a sequence of code points).
The Python code drives all extraction through `re.search` / `re.finditer` /
`re.findall` with a fixed set of regular expressions.  Every regex appearing in
the analyzer uses quantifiers (`*`, `+`, `?`, `*?`, `+?`, `{m,n}`) only over
single-character items (character classes or literal characters), so we embed
the regexes into a small AST (`RE`) whose quantifier constructors take a
character class, and give it a backtracking matcher `mRE` with Python's
semantics: leftmost match, greedy quantifiers try longest first, lazy
quantifiers shortest first, alternation tries branches left to right.

Notes on fidelity:
* Python's `\d`, `\s`, `\w` on `str` are Unicode-aware; all texts the analyzer
  is specified on are ASCII plus the rupee sign `₹`, for which the ASCII
  classes below coincide with Python's.
* `$` in Python (no `re.MULTILINE`) matches at the end of the string or just
  before a trailing newline; `eos` below implements exactly that.
* Captures are recorded when a group finishes matching; no regex in the
  analyzer has nested capturing groups, so this agrees with Python's numbering
  by opening parenthesis.
* Lookahead groups `(?=...)` in the analyzer contain no capturing groups, so
  our `look` discards captures found inside the lookahead.
-/

abbrev Str := List Char

/-- Python `\s` (ASCII part): space, tab, newline, carriage return, vertical
tab, form feed. -/
def pyIsSpace (c : Char) : Bool :=
  c = ' ' || c = '\t' || c = '\n' || c = '\r' || c = '\x0b' || c = '\x0c'

/-- `[A-Za-z]`. -/
def isAsciiAlpha (c : Char) : Bool :=
  ('a' ≤ c && c ≤ 'z') || ('A' ≤ c && c ≤ 'Z')

/-- Python `\w` (ASCII part), used for `\b` word boundaries. -/
def pyIsWord (c : Char) : Bool :=
  isAsciiAlpha c || c.isDigit || c = '_'

/-- Character classes occurring in the analyzer's regexes. -/
inductive CC where
  | lit (c : Char)        -- a literal character
  | digit                 -- \d
  | space                 -- \s
  | alphaSp               -- [A-Za-z\s]
  | colonSp               -- [:\s]
  | alphaC                -- [A-Za-z]
  | notAlpha              -- [^A-Za-z]
  | digitComma            -- [\d,]
  | dashDotSp             -- [-.\s]
  | alnumDash             -- [A-Za-z0-9-]
  | anyNotNl              -- `.` (without re.DOTALL): any char except newline
  | notOf (cs : List Char)  -- [^...] over the listed characters
deriving DecidableEq

/-- Does character `c` belong to the class?  `ci` is Python's `re.IGNORECASE`:
it makes literal characters match case-insensitively (the only construct in
the analyzer's patterns that is case-sensitive to begin with; the excluded
characters of the `notOf` classes used here are non-letters). -/
def CC.test (ci : Bool) : CC → Char → Bool
  | .lit a, c => if ci then a.toLower = c.toLower else a = c
  | .digit, c => c.isDigit
  | .space, c => pyIsSpace c
  | .alphaSp, c => isAsciiAlpha c || pyIsSpace c
  | .colonSp, c => c = ':' || pyIsSpace c
  | .alphaC, c => isAsciiAlpha c
  | .notAlpha, c => !isAsciiAlpha c
  | .digitComma, c => c.isDigit || c = ','
  | .dashDotSp, c => c = '-' || c = '.' || pyIsSpace c
  | .alnumDash, c => isAsciiAlpha c || c.isDigit || c = '-'
  | .anyNotNl, c => c ≠ '\n'
  | .notOf cs, c => !(cs.contains c)

/-- Regex AST.  Quantifiers (`opt`/`star`/`plus`, greedy; `starL`/`plusL`,
lazy) take a character class — every quantified item in the analyzer's
patterns is a single-character item. -/
inductive RE where
  | eps
  | cc (c : CC)
  | opt (c : CC)          -- c?   (greedy)
  | star (c : CC)         -- c*   (greedy)
  | plus (c : CC)         -- c+   (greedy)
  | starL (c : CC)        -- c*?  (lazy)
  | plusL (c : CC)        -- c+?  (lazy)
  | seq (a b : RE)
  | alt (a b : RE)        -- a|b, tried left to right
  | grp (r : RE)          -- (...) capturing group
  | look (r : RE)         -- (?=...) lookahead
  | wordB                 -- \b
  | eos                   -- $
deriving DecidableEq

abbrev Caps := List Str

/-- Result threaded through the matcher: captures so far, remaining input,
and the character just before the remaining input (for `\b`). -/
abbrev KRes := Caps × Str × Option Char

abbrev K := Str → Option Char → Caps → Option KRes

/-- Length of the maximal prefix of `s` whose characters satisfy class `c`. -/
def runLen (ci : Bool) (c : CC) : Str → Nat
  | [] => 0
  | x :: xs => if CC.test ci c x then runLen ci c xs + 1 else 0

/-- Try `f hi`, `f (hi-1)`, ... for `fuel` attempts (greedy backtracking
order: longest first). -/
def tryDescAux (f : Nat → Option KRes) (hi : Nat) : Nat → Option KRes
  | 0 => none
  | fuel + 1 => f hi <|> tryDescAux f (hi - 1) fuel

/-- Try `f lo`, `f (lo+1)`, ... for `fuel` attempts (lazy backtracking order:
shortest first). -/
def tryAscAux (f : Nat → Option KRes) (lo : Nat) : Nat → Option KRes
  | 0 => none
  | fuel + 1 => f lo <|> tryAscAux f (lo + 1) fuel

/-- The previous-character marker after consuming `taken` (falling back to
the old marker when nothing was consumed). -/
def lastOr (prev : Option Char) (taken : Str) : Option Char :=
  match taken.getLast? with
  | some c => some c
  | none => prev

/-- Word-boundary test: `\b` holds where exactly one side is a word
character (missing sides count as non-word). -/
def atWordB (prev : Option Char) (inp : Str) : Bool :=
  let pw := match prev with | some c => pyIsWord c | none => false
  let nw := match inp with | c :: _ => pyIsWord c | [] => false
  pw != nw

/-- Backtracking matcher in continuation-passing style.  `mRE ci r inp prev
caps k` attempts to match `r` at the start of `inp` (`prev` is the character
just before `inp`, `caps` the captures recorded so far) and runs `k` on every
way of matching, in Python's backtracking order, returning the first success. -/
def mRE (ci : Bool) : RE → Str → Option Char → Caps → K → Option KRes
  | .eps, inp, prev, caps, k => k inp prev caps
  | .cc c, inp, _prev, caps, k =>
    match inp with
    | [] => none
    | x :: rest => if CC.test ci c x then k rest (some x) caps else none
  | .opt c, inp, prev, caps, k =>
    (match inp with
     | [] => none
     | x :: rest => if CC.test ci c x then k rest (some x) caps else none)
    <|> k inp prev caps
  | .star c, inp, prev, caps, k =>
    let m := runLen ci c inp
    tryDescAux (fun j => k (inp.drop j) (lastOr prev (inp.take j)) caps) m (m + 1)
  | .plus c, inp, prev, caps, k =>
    let m := runLen ci c inp
    tryDescAux (fun j => k (inp.drop j) (lastOr prev (inp.take j)) caps) m m
  | .starL c, inp, prev, caps, k =>
    let m := runLen ci c inp
    tryAscAux (fun j => k (inp.drop j) (lastOr prev (inp.take j)) caps) 0 (m + 1)
  | .plusL c, inp, prev, caps, k =>
    let m := runLen ci c inp
    tryAscAux (fun j => k (inp.drop j) (lastOr prev (inp.take j)) caps) 1 m
  | .seq a b, inp, prev, caps, k =>
    mRE ci a inp prev caps (fun rem p cs => mRE ci b rem p cs k)
  | .alt a b, inp, prev, caps, k =>
    mRE ci a inp prev caps k <|> mRE ci b inp prev caps k
  | .grp r, inp, prev, caps, k =>
    mRE ci r inp prev caps
      (fun rem p cs => k rem p (cs ++ [inp.take (inp.length - rem.length)]))
  | .look r, inp, prev, caps, k =>
    match mRE ci r inp prev [] (fun rem p cs => some (cs, rem, p)) with
    | some _ => k inp prev caps
    | none => none
  | .wordB, inp, prev, caps, k =>
    if atWordB prev inp then k inp prev caps else none
  | .eos, inp, prev, caps, k =>
    if inp = [] ∨ inp = ['\n'] then k inp prev caps else none

/-- Leftmost search (`re.search`): try a match starting at each position in
turn.  Returns the captures, the input remaining after the match, the last
character of the match, and the match length. -/
def searchFrom (ci : Bool) (r : RE) : Option Char → Str → Option (Caps × Str × Option Char × Nat)
  | prev, [] =>
    match mRE ci r [] prev [] (fun rem p cs => some (cs, rem, p)) with
    | some (caps, rem, p) => some (caps, rem, p, ([] : Str).length - rem.length)
    | none => none
  | prev, c :: rest =>
    match mRE ci r (c :: rest) prev [] (fun rem p cs => some (cs, rem, p)) with
    | some (caps, rem, p) => some (caps, rem, p, (c :: rest).length - rem.length)
    | none => searchFrom ci r (some c) rest

/-- `re.search(r, text)`: leftmost match from the start of the text. -/
def reSearch (ci : Bool) (r : RE) (text : Str) : Option (Caps × Str × Option Char × Nat) :=
  searchFrom ci r none text

/-- The capture list of the leftmost match, if any. -/
def reSearchCaps (ci : Bool) (r : RE) (text : Str) : Option Caps :=
  (reSearch ci r text).map (·.1)

/-- `re.finditer`: repeated leftmost search, resuming after each match
(Python advances one character past a zero-width match).  The fuel is
`text.length + 1` at the top call, which suffices because every continuation
strictly shortens the input. -/
def findIterAux (ci : Bool) (r : RE) : Nat → Option Char → Str → List Caps
  | 0, _, _ => []
  | fuel + 1, prev, inp =>
    match searchFrom ci r prev inp with
    | none => []
    | some (caps, rem, p, L) =>
      if L = 0 then
        match rem with
        | [] => [caps]
        | c :: rest => caps :: findIterAux ci r fuel (some c) rest
      else caps :: findIterAux ci r fuel p rem

/-- All (non-overlapping, leftmost) matches of `r` in `text`, as capture
lists. -/
def reFindIter (ci : Bool) (r : RE) (text : Str) : List Caps :=
  findIterAux ci r (text.length + 1) none text

/-- `len(re.findall(r, text))` for the group-free classifier patterns. -/
def reCount (ci : Bool) (r : RE) (text : Str) : Nat :=
  (reFindIter ci r text).length

/-- Python `str.lower()` (ASCII; `₹` is unaffected either way). -/
def pyLower (s : Str) : Str := s.map Char.toLower

/-- Python `str.strip()`: drop whitespace from both ends. -/
def pyStrip (s : Str) : Str :=
  ((s.dropWhile pyIsSpace).reverse.dropWhile pyIsSpace).reverse

/-- `str.replace(',', '')`: remove every comma. -/
def stripCommas (s : Str) : Str := s.filter (fun c => c ≠ ',')

/-- A sequence of literal characters. -/
def litStr (s : String) : RE :=
  (s.data.map (fun c => RE.cc (.lit c))).foldr RE.seq .eps

/-- Concatenation of a list of regexes. -/
def reCat (rs : List RE) : RE := rs.foldr RE.seq .eps

/-- Words joined by `\s+`, e.g. `wpat ["tax","invoice"]` is `tax\s+invoice`. -/
def wpat (ws : List String) : RE :=
  reCat ((ws.map litStr).intersperse (RE.plus .space))

/-- `\d\d...\d` (`n` times); the shape of every phone-number capture group. -/
def digitCat : Nat → RE
  | 0 => .eps
  | n + 1 => .seq (.cc .digit) (digitCat n)

/-! ## The analyzer's regexes

Each definition below transliterates one Python regex from
`document_analyzer.py`; the original regex is given in the comment. -/

-- Classifier keyword patterns (`self.document_patterns`, lines 13-47).
def invoice_patterns : List RE :=
  [litStr "invoice", wpat ["tax", "invoice"], litStr "invoice#",
   wpat ["bill", "to"], wpat ["invoice", "number"], wpat ["invoice", "date"],
   wpat ["due", "date"], wpat ["total", "amount"], wpat ["amount", "due"],
   litStr "gstin", wpat ["pan", "no"], wpat ["payment", "made"]]

def rental_agreement_patterns : List RE :=
  [wpat ["lease", "agreement"], wpat ["rental", "agreement"],
   litStr "landlord", litStr "tenant", wpat ["monthly", "rent"],
   wpat ["lease", "start"], wpat ["lease", "end"], wpat ["security", "deposit"]]

def utility_bill_patterns : List RE :=
  [wpat ["utility", "bill"], wpat ["electric", "bill"], wpat ["gas", "bill"],
   wpat ["water", "bill"], wpat ["service", "period"], wpat ["meter", "reading"],
   litStr "usage"]

-- `tax\s+invoice|invoice#|invoice\s+number` (line 120)
def fastPathRE : RE :=
  .alt (.alt (wpat ["tax", "invoice"]) (litStr "invoice#")) (wpat ["invoice", "number"])

-- `([A-Za-z\s]+?)` — the lazy name capture group
def nameGrp : RE := .grp (.plusL .alphaSp)

-- `(?:\n|$|,)` — the name terminator
def nameEnd : RE := .alt (.alt (.cc (.lit '\n')) .eos) (.cc (.lit ','))

-- `LBL[:\s]*([A-Za-z\s]+?)(?:\n|$|,)` for a label regex `LBL`
def name_pat (lbl : RE) : RE := reCat [lbl, .star .colonSp, nameGrp, nameEnd]

-- tenant patterns (lines 142-146): tenant / renter / lessee
def tenant_name_patterns : List RE :=
  [name_pat (litStr "tenant"), name_pat (litStr "renter"), name_pat (litStr "lessee")]

-- landlord patterns (lines 159-164): landlord / lessor / owner / property\s+owner
def landlord_name_patterns : List RE :=
  [name_pat (litStr "landlord"), name_pat (litStr "lessor"),
   name_pat (litStr "owner"), name_pat (wpat ["property", "owner"])]

-- bill-to-name patterns (lines 351-357)
def bill_to_name_patterns : List RE :=
  [ -- `Bill\s+To\s*\n\s*([A-Za-z\s]+?)(?:\n|Attn:)`
   reCat [litStr "Bill", .plus .space, litStr "To", .star .space,
          .cc (.lit '\n'), .star .space, nameGrp,
          .alt (.cc (.lit '\n')) (litStr "Attn:")],
   -- `bill\s+to[:\s]*([A-Za-z\s]+?)(?:\n|$|,)`
   name_pat (wpat ["bill", "to"]),
   -- `billed\s+to[:\s]*([A-Za-z\s]+?)(?:\n|$|,)`
   name_pat (wpat ["billed", "to"]),
   -- `customer[:\s]*([A-Za-z\s]+?)(?:\n|$|,)`
   name_pat (litStr "customer"),
   -- `Bill\s+To[^A-Za-z]*([A-Za-z\s]+?)(?:Attn:|H\s+No\.|Address:|$)`
   reCat [litStr "Bill", .plus .space, litStr "To", .star .notAlpha, nameGrp,
          .alt (.alt (.alt (litStr "Attn:")
                           (reCat [litStr "H", .plus .space, litStr "No."]))
                     (litStr "Address:"))
               .eos]]

-- `([\d,]+\.?\d*)` — the amount capture group
def amountGrp : RE := .grp (reCat [.plus .digitComma, .opt (.lit '.'), .star .digit])

-- `LBL[:\s]*\$?(...)` for a label regex `LBL`
def amt_pat (lbl : RE) : RE := reCat [lbl, .star .colonSp, .opt (.lit '$'), amountGrp]

-- `LBL[:\s]*₹(...)` (the rupee sign is mandatory in these patterns)
def amtR_pat (lbl : RE) : RE := reCat [lbl, .star .colonSp, .cc (.lit '₹'), amountGrp]

-- monthly-rent patterns (lines 228-232)
def monthly_rent_patterns : List RE :=
  [ -- `monthly\s+rent[:\s]*\$?([\d,]+\.?\d*)`
   amt_pat (wpat ["monthly", "rent"]),
   -- `rent[:\s]*\$?([\d,]+\.?\d*)\s*(?:per\s+month|monthly|/month)`
   reCat [litStr "rent", .star .colonSp, .opt (.lit '$'), amountGrp, .star .space,
          .alt (.alt (wpat ["per", "month"]) (litStr "monthly")) (litStr "/month")],
   -- `rental\s+amount[:\s]*\$?([\d,]+\.?\d*)`
   amt_pat (wpat ["rental", "amount"])]

-- security-deposit patterns (lines 244-248)
def security_deposit_patterns : List RE :=
  [amt_pat (wpat ["security", "deposit"]), amt_pat (litStr "deposit"),
   amt_pat (wpat ["damage", "deposit"])]

-- total-amount patterns (lines 389-400)
def total_amount_patterns : List RE :=
  [ -- `Total\s+₹([\d,]+\.?\d*)`
   reCat [litStr "Total", .plus .space, .cc (.lit '₹'), amountGrp],
   -- `Total\s+Rs\.?\s*([\d,]+\.?\d*)`
   reCat [litStr "Total", .plus .space, litStr "Rs", .opt (.lit '.'),
          .star .space, amountGrp],
   amt_pat (wpat ["total", "amount"]), amtR_pat (wpat ["total", "amount"]),
   amt_pat (litStr "total"), amtR_pat (litStr "total"),
   amt_pat (wpat ["amount", "due"]), amtR_pat (wpat ["amount", "due"]),
   amt_pat (wpat ["balance", "due"]), amtR_pat (wpat ["balance", "due"])]

-- tax-amount patterns (lines 416-426)
def tax_amount_patterns : List RE :=
  [ -- `IGST18\s*\(18%\)\s*([\d,]+\.?\d*)`
   reCat [litStr "IGST18", .star .space, litStr "(18%)", .star .space, amountGrp],
   -- `IGST\s*\d+\s*\([^)]+\)\s*([\d,]+\.?\d*)`
   reCat [litStr "IGST", .star .space, .plus .digit, .star .space,
          .cc (.lit '('), .plus (.notOf [')']), .cc (.lit ')'),
          .star .space, amountGrp],
   amt_pat (litStr "tax"), amtR_pat (litStr "tax"),
   amt_pat (wpat ["sales", "tax"]), amtR_pat (wpat ["sales", "tax"]),
   amt_pat (litStr "vat"), amtR_pat (litStr "vat"),
   amtR_pat (litStr "GST")]

-- phone-number patterns (lines 279-285)
def phone_patterns : List RE :=
  [ -- `\((\d{3})\)\s*(\d{3})-(\d{4})`
   reCat [.cc (.lit '('), .grp (digitCat 3), .cc (.lit ')'), .star .space,
          .grp (digitCat 3), .cc (.lit '-'), .grp (digitCat 4)],
   -- `(\d{3})-(\d{3})-(\d{4})`
   reCat [.grp (digitCat 3), .cc (.lit '-'), .grp (digitCat 3), .cc (.lit '-'),
          .grp (digitCat 4)],
   -- `(\d{3})\.(\d{3})\.(\d{4})`
   reCat [.grp (digitCat 3), .cc (.lit '.'), .grp (digitCat 3), .cc (.lit '.'),
          .grp (digitCat 4)],
   -- `(\d{3})\s+(\d{3})\s+(\d{4})`
   reCat [.grp (digitCat 3), .plus .space, .grp (digitCat 3), .plus .space,
          .grp (digitCat 4)],
   -- `\+?1?[-.\s]?\(?(\d{3})\)?[-.\s]?(\d{3})[-.\s]?(\d{4})`
   reCat [.opt (.lit '+'), .opt (.lit '1'), .opt .dashDotSp, .opt (.lit '('),
          .grp (digitCat 3), .opt (.lit ')'), .opt .dashDotSp,
          .grp (digitCat 3), .opt .dashDotSp, .grp (digitCat 4)]]

-- invoice-number patterns (lines 300-306)
def invoice_number_patterns : List RE :=
  [ -- `INVOICE#\s*:\s*([A-Za-z0-9-]+)`
   reCat [litStr "INVOICE#", .star .space, .cc (.lit ':'), .star .space,
          .grp (.plus .alnumDash)],
   -- `invoice\s+(?:number|#)[:\s]*([A-Za-z0-9-]+)`
   reCat [litStr "invoice", .plus .space, .alt (litStr "number") (.cc (.lit '#')),
          .star .colonSp, .grp (.plus .alnumDash)],
   -- `invoice[:\s]*([A-Za-z0-9-]+)`
   reCat [litStr "invoice", .star .colonSp, .grp (.plus .alnumDash)],
   -- `bill\s+(?:number|#)[:\s]*([A-Za-z0-9-]+)`
   reCat [litStr "bill", .plus .space, .alt (litStr "number") (.cc (.lit '#')),
          .star .colonSp, .grp (.plus .alnumDash)],
   -- `TAX\s+INVOICE[^#]*#\s*:\s*([A-Za-z0-9-]+)`
   reCat [wpat ["TAX", "INVOICE"], .star (.notOf ['#']), .cc (.lit '#'),
          .star .space, .cc (.lit ':'), .star .space, .grp (.plus .alnumDash)]]

-- `([A-Za-z]+ \d{1,2},? \d{4})` — the generic date capture group
def dateGrp : RE :=
  .grp (reCat [.plus .alphaC, .cc (.lit ' '), .cc .digit, .opt .digit,
               .opt (.lit ','), .cc (.lit ' '), digitCat 4])

-- `LBL[:\s]*([A-Za-z]+ \d{1,2},? \d{4})`
def date_pat (lbl : RE) : RE := reCat [lbl, .star .colonSp, dateGrp]

-- `(\d{1,2}\s+[A-Za-z]+\s+\d{4})` — the label-anchored date group
def dateGrpAnch : RE :=
  .grp (reCat [.cc .digit, .opt .digit, .plus .space, .plus .alphaC,
               .plus .space, digitCat 4])

-- `(\d{1,2}\s+[A-Za-z]{3}\s+\d{4})`
def dateGrpAnch3 : RE :=
  .grp (reCat [.cc .digit, .opt .digit, .plus .space, .cc .alphaC, .cc .alphaC,
               .cc .alphaC, .plus .space, digitCat 4])

-- lease-start-date patterns (lines 196-201)
def lease_start_date_patterns : List RE :=
  [date_pat (wpat ["lease", "start", "date"]), date_pat (wpat ["start", "date"]),
   date_pat (wpat ["commencement", "date"]), date_pat (wpat ["lease", "begins"])]

-- lease-end-date patterns (lines 212-217)
def lease_end_date_patterns : List RE :=
  [date_pat (wpat ["lease", "end", "date"]), date_pat (wpat ["end", "date"]),
   date_pat (wpat ["expiration", "date"]), date_pat (wpat ["lease", "expires"])]

-- invoice-date patterns (lines 317-323)
def invoice_date_patterns : List RE :=
  [ -- `DATE\s*:\s*(\d{1,2}\s+[A-Za-z]+\s+\d{4})`
   reCat [litStr "DATE", .star .space, .cc (.lit ':'), .star .space, dateGrpAnch],
   date_pat (wpat ["invoice", "date"]), date_pat (litStr "date"),
   date_pat (wpat ["bill", "date"]),
   -- `DATE\s*:\s*(\d{1,2}\s+[A-Za-z]{3}\s+\d{4})`
   reCat [litStr "DATE", .star .space, .cc (.lit ':'), .star .space, dateGrpAnch3]]

-- due-date patterns (lines 334-339)
def due_date_patterns : List RE :=
  [ -- `DUE\s+DATE\s*:\s*(\d{1,2}\s+[A-Za-z]+\s+\d{4})`
   reCat [wpat ["DUE", "DATE"], .star .space, .cc (.lit ':'), .star .space,
          dateGrpAnch],
   date_pat (wpat ["due", "date"]), date_pat (wpat ["payment", "due"]),
   date_pat (wpat ["due", "by"]),
   reCat [wpat ["DUE", "DATE"], .star .space, .cc (.lit ':'), .star .space,
          dateGrpAnch3]]

-- property-address patterns (lines 177-182)
def property_address_patterns : List RE :=
  [ -- `property\s+address[:\s]*([^\n]+)`
   reCat [wpat ["property", "address"], .star .colonSp, .grp (.plus (.notOf ['\n']))],
   -- `address[:\s]*([^\n]+(?:\d{5}|\d{6}))`
   reCat [litStr "address", .star .colonSp,
          .grp (reCat [.plus (.notOf ['\n']), .alt (digitCat 5) (digitCat 6)])],
   -- `located\s+at[:\s]*([^\n]+)`
   reCat [wpat ["located", "at"], .star .colonSp, .grp (.plus (.notOf ['\n']))],
   -- `premises[:\s]*([^\n]+)`
   reCat [litStr "premises", .star .colonSp, .grp (.plus (.notOf ['\n']))]]

-- bill-to-address patterns (lines 370-376)
def bill_to_address_patterns : List RE :=
  [ -- `Bill\s+To[^H]*H\s+No\.([^G]*?)(?:GSTIN|Telangana)`
   reCat [litStr "Bill", .plus .space, litStr "To", .star (.notOf ['H']),
          litStr "H", .plus .space, litStr "No.", .grp (.starL (.notOf ['G'])),
          .alt (litStr "GSTIN") (litStr "Telangana")],
   -- `bill\s+to[:\s]*[A-Za-z\s]+\n([^\n]+(?:\d{5}|\d{6}))`
   reCat [wpat ["bill", "to"], .star .colonSp, .plus .alphaSp, .cc (.lit '\n'),
          .grp (reCat [.plus (.notOf ['\n']), .alt (digitCat 5) (digitCat 6)])],
   -- `billing\s+address[:\s]*([^\n]+)`
   reCat [wpat ["billing", "address"], .star .colonSp, .grp (.plus (.notOf ['\n']))],
   -- `customer\s+address[:\s]*([^\n]+)`
   reCat [wpat ["customer", "address"], .star .colonSp, .grp (.plus (.notOf ['\n']))],
   -- `Attn:[^\n]*\n([^G]*?)(?:GSTIN|$)`
   reCat [litStr "Attn:", .star (.notOf ['\n']), .cc (.lit '\n'),
          .grp (.starL (.notOf ['G'])), .alt (litStr "GSTIN") .eos]]

-- `(\d{5,6})` — pin-code capture
def pinGrp56 : RE := .grp (reCat [digitCat 5, .opt .digit])

-- pin-code patterns (lines 260-267)
def pin_code_patterns : List RE :=
  [ -- `Pin\s+Code:\s*(\d{5,6})`
   reCat [litStr "Pin", .plus .space, litStr "Code:", .star .space, pinGrp56],
   -- `pin\s+code[:\s]*(\d{5,6})`
   reCat [wpat ["pin", "code"], .star .colonSp, pinGrp56],
   -- `zip\s+code[:\s]*(\d{5})`
   reCat [wpat ["zip", "code"], .star .colonSp, .grp (digitCat 5)],
   -- `postal\s+code[:\s]*(\d{5,6})`
   reCat [wpat ["postal", "code"], .star .colonSp, pinGrp56],
   -- `Pin\s+Code\s*:\s*(\d{5,6})`
   reCat [litStr "Pin", .plus .space, litStr "Code", .star .space,
          .cc (.lit ':'), .star .space, pinGrp56],
   -- `\b(\d{6})\b(?=\s*Tamil\s+Nadu|\s*India|\s*Telangana)`
   reCat [.wordB, .grp (digitCat 6), .wordB,
          .look (.alt (.alt (reCat [.star .space, wpat ["Tamil", "Nadu"]])
                            (reCat [.star .space, litStr "India"]))
                      (reCat [.star .space, litStr "Telangana"]))],
   -- `\b(\d{5})\b(?=\s*Tamil\s+Nadu|\s*India|\s*Telangana)`
   reCat [.wordB, .grp (digitCat 5), .wordB,
          .look (.alt (.alt (reCat [.star .space, wpat ["Tamil", "Nadu"]])
                            (reCat [.star .space, litStr "India"]))
                      (reCat [.star .space, litStr "Telangana"]))]]

-- `\bWORD\b`
def bword (s : String) : RE := reCat [.wordB, litStr s, .wordB]

-- `\bW1\s+W2\b`
def bwords (ws : List String) : RE := reCat [.wordB, wpat ws, .wordB]

-- `\bpaid\b|\bpayment\s+received\b|\bcomplete\b|\bpayment\s+made\b` (line 444)
def paidRE : RE :=
  .alt (.alt (.alt (bword "paid") (bwords ["payment", "received"]))
             (bword "complete"))
       (bwords ["payment", "made"])

-- `balance\s+due\s*₹?0\.00|balance\s+due\s*\$?0\.00` (line 446)
def zeroBalRE : RE :=
  .alt (reCat [wpat ["balance", "due"], .star .space, .opt (.lit '₹'), litStr "0.00"])
       (reCat [wpat ["balance", "due"], .star .space, .opt (.lit '$'), litStr "0.00"])

-- `\bdue\b|\bpending\b|\bunpaid\b|\boverdue\b` (line 448)
def dueRE : RE :=
  .alt (.alt (.alt (bword "due") (bword "pending")) (bword "unpaid"))
       (bword "overdue")

-- `\bpartial\b|\bpartially\s+paid\b` (line 450)
def partRE : RE := .alt (bword "partial") (bwords ["partially", "paid"])

-- pet keywords (lines 457-461)
def pet_keywords : List RE :=
  [bword "pet", bword "dog", bword "cat", bword "animal", bword "puppy",
   bword "kitten", bwords ["pets", "allowed"], bwords ["no", "pets"],
   bwords ["pet", "deposit"], bwords ["pet", "fee"]]

-- `\d+.*[A-Za-z]` — the address validity check (lines 189, 382)
def digitThenAlphaRE : RE := reCat [.plus .digit, .star .anyNotNl, .cc .alphaC]

/-! ## The extractors

Each definition mirrors one method of `DocumentAnalyzer`.  The Python file
writes `null` where it means the absent value — but `null` is an undefined
name in Python (`document_processor.py` next to it correctly writes `None`),
so every line `return null` actually evaluates the undefined name and raises
`NameError`.  We model each extractor's pattern loop as an `Option`-valued
function — `some s` is the genuine `return s` path, `none` marks that the
loop fell through to its final `return null` line — and `liftNull` below
converts that fall-through into the `NameError` the code actually raises.
All extractor searches pass `re.IGNORECASE` except the phone patterns, the
classifier and payment status (which lower-case the text instead), and the
internal `\d`-checks. -/

/-- The two exceptions raised inside `analyze_document`: `NameError` from
evaluating the undefined name `null`, and `UnboundLocalError` from line 81's
read of `result` inside its own initializer. -/
inductive PyErr where
  | nameError
  | unboundLocal
deriving DecidableEq

/-- Reaching a `return null` line evaluates the undefined name `null` and
raises `NameError`; a real value is returned unchanged. -/
def liftNull {α : Type} : Option α → Except PyErr α
  | some a => Except.ok a
  | none => Except.error PyErr.nameError

/-- Shared loop shape: first pattern whose search matches, returning
`match.group(1)` (every pattern in the lists used here contains exactly one
capturing group, so the empty-capture branch is unreachable). -/
def firstGroup (ci : Bool) : List RE → Str → Option Str
  | [], _ => none
  | p :: ps, text =>
    match reSearchCaps ci p text with
    | some (g :: _) => some g
    | _ => firstGroup ci ps text

/-- Loop of `_extract_tenant_name` / `_extract_landlord_name` /
`_extract_bill_to_name`: `name = match.group(1).strip()`, returned only if
`len(name) > 2 and not re.search(r'\d', name)`; otherwise the next pattern
is tried. -/
def nameFrom : List RE → Str → Option Str
  | [], _ => none
  | p :: ps, text =>
    match reSearchCaps true p text with
    | some (g :: _) =>
      let name := pyStrip g
      if 2 < name.length ∧ name.all (fun c => !c.isDigit) then some name
      else nameFrom ps text
    | _ => nameFrom ps text

/-- Loop of `_extract_property_address` / `_extract_bill_to_address`:
`address = match.group(1).strip()`, returned only if
`re.search(r'\d+.*[A-Za-z]', address)`. -/
def addrFrom : List RE → Str → Option Str
  | [], _ => none
  | p :: ps, text =>
    match reSearchCaps true p text with
    | some (g :: _) =>
      let address := pyStrip g
      if (reSearch false digitThenAlphaRE address).isSome then some address
      else addrFrom ps text
    | _ => addrFrom ps text

-- `_identify_document_type` helpers ------------------------------------------

/-- Sum of `len(re.findall(p, text))` over a type's keyword patterns
(lines 126-129). -/
def patScore (text : Str) (pats : List RE) : Nat :=
  (pats.map (fun p => reCount false p text)).sum

/-- The scores dict in its (insertion-ordered) iteration order. -/
def typeScores (tl : Str) : List (Str × Nat) :=
  [("invoice".data, patScore tl invoice_patterns),
   ("rental_agreement".data, patScore tl rental_agreement_patterns),
   ("utility_bill".data, patScore tl utility_bill_patterns)]

/-- Python `max(scores, key=scores.get)` over an association list in
iteration order: the first key whose value is maximal (later entries replace
the best only when strictly greater). -/
def pyMaxFirst : List (Str × Nat) → Option (Str × Nat)
  | [] => none
  | x :: xs => some (xs.foldl (fun b y => if y.2 > b.2 then y else b) x)

/-- `DocumentAnalyzer._identify_document_type` (lines 115-138).  The final
`return null` (line 138) evaluates the undefined name `null` and raises
`NameError`, so when all per-type totals are zero the classifier raises
instead of returning the absent value. -/
def _identify_document_type (text : Str) : Except PyErr Str :=
  let tl := pyLower text
  if (reSearch false fastPathRE tl).isSome then Except.ok "invoice".data
  else
    match pyMaxFirst (typeScores tl) with
    | some (best, v) =>
      if v > 0 then Except.ok best else Except.error PyErr.nameError
    | none => Except.error PyErr.nameError

-- Field extractors ------------------------------------------------------------

/-- `DocumentAnalyzer._extract_tenant_name` (lines 140-155). -/
def _extract_tenant_name (text : Str) : Option Str :=
  nameFrom tenant_name_patterns text

/-- `DocumentAnalyzer._extract_landlord_name` (lines 157-173). -/
def _extract_landlord_name (text : Str) : Option Str :=
  nameFrom landlord_name_patterns text

/-- `DocumentAnalyzer._extract_property_address` (lines 175-192). -/
def _extract_property_address (text : Str) : Option Str :=
  addrFrom property_address_patterns text

/-- `DocumentAnalyzer._extract_lease_start_date` (lines 194-208). -/
def _extract_lease_start_date (text : Str) : Option Str :=
  (firstGroup true lease_start_date_patterns text).map pyStrip

/-- `DocumentAnalyzer._extract_lease_end_date` (lines 210-224). -/
def _extract_lease_end_date (text : Str) : Option Str :=
  (firstGroup true lease_end_date_patterns text).map pyStrip

/-- `DocumentAnalyzer._extract_monthly_rent` (lines 226-240):
`amount = match.group(1).replace(',', '')`, returning `f"${amount}"`
(the currency symbol is always `$` here). -/
def _extract_monthly_rent (text : Str) : Option Str :=
  (firstGroup true monthly_rent_patterns text).map (fun g => '$' :: stripCommas g)

/-- `DocumentAnalyzer._extract_security_deposit` (lines 242-256): also always
prefixes `$`. -/
def _extract_security_deposit (text : Str) : Option Str :=
  (firstGroup true security_deposit_patterns text).map (fun g => '$' :: stripCommas g)

/-- `DocumentAnalyzer._extract_pin_code` (lines 258-275): returns
`match.group(1)` without stripping. -/
def _extract_pin_code (text : Str) : Option Str :=
  firstGroup true pin_code_patterns text

/-- `(xxx) xxx-xxxx` formatting of one phone match (line 292). -/
def phoneFormat (a b c : Str) : Str :=
  '(' :: a ++ [')', ' '] ++ b ++ ['-'] ++ c

/-- `if phone not in phone_numbers: phone_numbers.append(phone)` (293-294). -/
def insertIfAbsent (acc : List Str) (s : Str) : List Str :=
  if s ∈ acc then acc else acc ++ [s]

/-- `DocumentAnalyzer._extract_phone_numbers` (lines 277-296): all five
pattern passes accumulate into one shared, deduplicated list; each match is
formatted when the pattern has exactly three groups (all five do). -/
def _extract_phone_numbers (text : Str) : List Str :=
  phone_patterns.foldl
    (fun acc p =>
      (reFindIter false p text).foldl
        (fun acc caps =>
          match caps with
          | [a, b, c] => insertIfAbsent acc (phoneFormat a b c)
          | _ => acc)
        acc)
    []

/-- `DocumentAnalyzer._extract_invoice_number` (lines 298-313). -/
def _extract_invoice_number (text : Str) : Option Str :=
  (firstGroup true invoice_number_patterns text).map pyStrip

/-- `DocumentAnalyzer._extract_invoice_date` (lines 315-330). -/
def _extract_invoice_date (text : Str) : Option Str :=
  (firstGroup true invoice_date_patterns text).map pyStrip

/-- `DocumentAnalyzer._extract_due_date` (lines 332-347). -/
def _extract_due_date (text : Str) : Option Str :=
  (firstGroup true due_date_patterns text).map pyStrip

/-- `DocumentAnalyzer._extract_bill_to_name` (lines 349-366). -/
def _extract_bill_to_name (text : Str) : Option Str :=
  nameFrom bill_to_name_patterns text

/-- `DocumentAnalyzer._extract_bill_to_address` (lines 368-385). -/
def _extract_bill_to_address (text : Str) : Option Str :=
  addrFrom bill_to_address_patterns text

/-- Currency symbol for total/tax amounts (lines 407-410, 433-436):
`'₹' if '₹' in text else '$'`. -/
def currencySym (text : Str) : Char := if '₹' ∈ text then '₹' else '$'

/-- `DocumentAnalyzer._extract_total_amount` (lines 387-412). -/
def _extract_total_amount (text : Str) : Option Str :=
  (firstGroup true total_amount_patterns text).map
    (fun g => currencySym text :: stripCommas g)

/-- `DocumentAnalyzer._extract_tax_amount` (lines 414-438). -/
def _extract_tax_amount (text : Str) : Option Str :=
  (firstGroup true tax_amount_patterns text).map
    (fun g => currencySym text :: stripCommas g)

/-- `DocumentAnalyzer._extract_payment_status` (lines 440-453): a
fixed-priority decision list over the lower-cased text.  The fall-through
`return null` (line 453) evaluates the undefined name `null` and raises
`NameError`. -/
def _extract_payment_status (text : Str) : Except PyErr Str :=
  let tl := pyLower text
  if (reSearch false paidRE tl).isSome then Except.ok "paid".data
  else if (reSearch false zeroBalRE tl).isSome then Except.ok "paid".data
  else if (reSearch false dueRE tl).isSome then Except.ok "due".data
  else if (reSearch false partRE tl).isSome then Except.ok "partial".data
  else Except.error PyErr.nameError

/-- `DocumentAnalyzer._check_pets_mentioned` (lines 455-468). -/
def _check_pets_mentioned (text : Str) : Bool :=
  pet_keywords.any (fun p => (reSearch false p (pyLower text)).isSome)

/-! ## The result record, the confidence scorer, and `analyze_document` -/

/-- The JSON record assembled by `analyze_document` (spec §3,
`AnalysisResult`).  Confidence values are modelled as rationals. -/
structure AnalysisResult where
  document_type : Option Str
  tenant_name : Option Str
  landlord_name : Option Str
  property_address : Option Str
  lease_start_date : Option Str
  lease_end_date : Option Str
  monthly_rent : Option Str
  security_deposit : Option Str
  pin_code : Option Str
  phone_numbers : List Str
  invoice_number : Option Str
  invoice_date : Option Str
  due_date : Option Str
  bill_to_name : Option Str
  bill_to_address : Option Str
  total_amount : Option Str
  tax_amount : Option Str
  payment_status : Option Str
  pets_mentioned : Bool
  confidence_score : ℚ
deriving DecidableEq

/-- Round-half-even of a rational to an integer (the tie behaviour of
Python's `round`). -/
def rhe (q : ℚ) : ℤ :=
  if q - ⌊q⌋ < 1 / 2 then ⌊q⌋
  else if q - ⌊q⌋ > 1 / 2 then ⌊q⌋ + 1
  else if Even ⌊q⌋ then ⌊q⌋ else ⌊q⌋ + 1

/-- Python `round(x, 2)`. -/
def round2 (q : ℚ) : ℚ := (rhe (q * 100) : ℚ) / 100

/-- The counting test of lines 477-481 for an optional string field:
`value is not None and value != [] and value != ""`.  (A string is never
equal to the list `[]` in Python, so only emptiness matters.) -/
def countOptStr : Option Str → Nat
  | none => 0
  | some s => if s = [] then 0 else 1

/-- The same test for the `phone_numbers` list field. -/
def countListF (l : List Str) : Nat := if l = [] then 0 else 1

/-- The same test for the boolean `pets_mentioned` field: in Python
`False is not None`, `False != []` and `False != ""` all hold, so the field
counts as extracted whether it is `True` or `False`. -/
def countBoolF (_b : Bool) : Nat := 1

/-- The loop of lines 477-481: count the non-null / non-empty fields,
skipping `confidence_score`. -/
def extractedFields (r : AnalysisResult) : Nat :=
  countOptStr r.document_type + countOptStr r.tenant_name +
  countOptStr r.landlord_name + countOptStr r.property_address +
  countOptStr r.lease_start_date + countOptStr r.lease_end_date +
  countOptStr r.monthly_rent + countOptStr r.security_deposit +
  countOptStr r.pin_code + countListF r.phone_numbers +
  countOptStr r.invoice_number + countOptStr r.invoice_date +
  countOptStr r.due_date + countOptStr r.bill_to_name +
  countOptStr r.bill_to_address + countOptStr r.total_amount +
  countOptStr r.tax_amount + countOptStr r.payment_status +
  countBoolF r.pets_mentioned

/-- The formula of the scorer's `try` body (lines 473-505), translated
as written.  This code is DEAD: the loop's first comparison
`value is not null` (line 480) evaluates the undefined name `null` and
raises `NameError` before any field is counted, so this formula is what the
code was meant to compute, never what it returns. -/
def confidence_try_formula (text : Str) (extracted_data : AnalysisResult) : ℚ :=
  let total_fields : ℚ := 20
  let extracted_fields : ℚ := extractedFields extracted_data
  let field_confidence := extracted_fields / total_fields
  let text_length := text.length
  let has_structure := text.any (fun c => c = ':' || c = '\n')   -- re.search(r'[:\n]', text)
  let has_numbers := text.any Char.isDigit                        -- re.search(r'\d', text)
  let has_currency := text.any (fun c => c = '$')                 -- re.search(r'\$', text)
  let q1 : ℚ := 1
  let q2 := if text_length > 100 then q1 + 1 / 10 else q1
  let q3 := if has_structure then q2 + 1 / 10 else q2
  let q4 := if has_numbers then q3 + 1 / 10 else q3
  let quality_score := if has_currency then q4 + 1 / 10 else q4
  let confidence := min (field_confidence * quality_score) 1
  round2 confidence

/-- The scorer's `try` body as executed: its first field comparison
(line 480, `value is not null`) raises `NameError` on every record. -/
def confidence_try_body (_text : Str) (_extracted_data : AnalysisResult) : Except PyErr ℚ :=
  Except.error PyErr.nameError

/-- `DocumentAnalyzer._calculate_confidence_score` (lines 470-509): the
`try` body raises `NameError` at line 480, the function's own
`except` (lines 507-509) catches it and returns `0.0` — for every input. -/
def _calculate_confidence_score (text : Str) (extracted_data : AnalysisResult) : ℚ :=
  match confidence_try_body text extracted_data with
  | .ok q => q
  | .error _ => 0

/-- The record the `except` handler of `analyze_document` (lines 92-113) is
meant to build: every field null / empty / false, confidence `0.0`.  The
handler never finishes building it — its dict literal evaluates the
undefined name `null` at line 93 and raises `NameError` — but it is the
record the spec describes, kept here to exhibit the divergence. -/
def defaultRecord : AnalysisResult :=
  { document_type := none, tenant_name := none, landlord_name := none,
    property_address := none, lease_start_date := none, lease_end_date := none,
    monthly_rent := none, security_deposit := none, pin_code := none,
    phone_numbers := [], invoice_number := none, invoice_date := none,
    due_date := none, bill_to_name := none, bill_to_address := none,
    total_amount := none, tax_amount := none, payment_status := none,
    pets_mentioned := false, confidence_score := 0 }

/-- The `try` body of `analyze_document` (lines 59-88).  The dict literal of
line 61 evaluates its values in order; evaluation stops at the first raise.
Most extractors raise `NameError` via their `return null` fall-through
(modelled by `liftNull` / the `Except`-valued classifier and payment
status); if every extractor returns a value, the final entry (line 81),
`"confidence_score": self._calculate_confidence_score(text, result)`,
reads the local variable `result` before the assignment `result = {...}`
has completed and raises `UnboundLocalError`.  Either way the body raises;
lines 85-88 are unreachable. -/
def analyze_body (text : Str) : Except PyErr AnalysisResult :=
  _identify_document_type text >>= fun _document_type =>
  liftNull (_extract_tenant_name text) >>= fun _tenant_name =>
  liftNull (_extract_landlord_name text) >>= fun _landlord_name =>
  liftNull (_extract_property_address text) >>= fun _property_address =>
  liftNull (_extract_lease_start_date text) >>= fun _lease_start_date =>
  liftNull (_extract_lease_end_date text) >>= fun _lease_end_date =>
  liftNull (_extract_monthly_rent text) >>= fun _monthly_rent =>
  liftNull (_extract_security_deposit text) >>= fun _security_deposit =>
  liftNull (_extract_pin_code text) >>= fun _pin_code =>
  (Except.ok (_extract_phone_numbers text) : Except PyErr (List Str)) >>= fun _phone_numbers =>
  liftNull (_extract_invoice_number text) >>= fun _invoice_number =>
  liftNull (_extract_invoice_date text) >>= fun _invoice_date =>
  liftNull (_extract_due_date text) >>= fun _due_date =>
  liftNull (_extract_bill_to_name text) >>= fun _bill_to_name =>
  liftNull (_extract_bill_to_address text) >>= fun _bill_to_address =>
  liftNull (_extract_total_amount text) >>= fun _total_amount =>
  liftNull (_extract_tax_amount text) >>= fun _tax_amount =>
  _extract_payment_status text >>= fun _payment_status =>
  (Except.ok (_check_pets_mentioned text) : Except PyErr Bool) >>= fun _pets_mentioned =>
  Except.error PyErr.unboundLocal

/-- `DocumentAnalyzer.analyze_document` (lines 49-113): run the `try` body;
on any exception the `except` handler runs — and its own dict literal
evaluates the undefined name `null` (line 93), raising a `NameError` that
propagates to the caller.  The function therefore never returns a record. -/
def analyze_document (text : Str) : Except PyErr AnalysisResult :=
  match analyze_body text with
  | .ok r => Except.ok r
  | .error _ => Except.error PyErr.nameError

/-! ## Helper lemmas -/

theorem orElse_some {α : Type} {x y : Option α} {v : α} (h : (x <|> y) = some v) :
    x = some v ∨ (x = none ∧ y = some v) := by
  cases x <;> simp_all

theorem floor_le_rhe (q : ℚ) : ⌊q⌋ ≤ rhe q := by
  unfold rhe; split_ifs <;> omega

theorem le_rhe_of_le (n : ℤ) (q : ℚ) (h : (n : ℚ) ≤ q) : n ≤ rhe q :=
  le_trans (Int.le_floor.mpr h) (floor_le_rhe q)

theorem rhe_le_of_le (q : ℚ) (n : ℤ) (h : q ≤ n) : rhe q ≤ n := by
  have hf : ⌊q⌋ ≤ n := by
    have := Int.floor_le_floor h
    simpa using this
  rcases lt_or_eq_of_le hf with h4 | h4
  · unfold rhe; split_ifs <;> omega
  · have hc : ((⌊q⌋ : ℤ) : ℚ) = (n : ℚ) := by exact_mod_cast h4
    have hfl : (n : ℚ) ≤ q := by rw [← hc]; exact Int.floor_le q
    have hq : q = (n : ℚ) := le_antisymm h hfl
    unfold rhe
    split_ifs with h1 h2 h3
    · omega
    all_goals (exfalso; rw [hc, hq] at h1; norm_num at h1)

theorem round2_nonneg {q : ℚ} (h : 0 ≤ q) : 0 ≤ round2 q := by
  unfold round2
  have h5 : (0 : ℤ) ≤ rhe (q * 100) := le_rhe_of_le 0 _ (by positivity)
  positivity

theorem round2_le_one {q : ℚ} (h : q ≤ 1) : round2 q ≤ 1 := by
  unfold round2
  have h5 : rhe (q * 100) ≤ (100 : ℤ) := rhe_le_of_le _ 100 (by push_cast; linarith)
  rw [div_le_one (by norm_num)]
  exact_mod_cast h5

theorem round2_ge {q : ℚ} (n : ℤ) (h : (n : ℚ) ≤ q * 100) : (n : ℚ) / 100 ≤ round2 q := by
  unfold round2
  have h5 : n ≤ rhe (q * 100) := le_rhe_of_le n _ h
  have h6 : (n : ℚ) ≤ (rhe (q * 100) : ℚ) := by exact_mod_cast h5
  linarith

/-- Spec-side quality score (§4.3, step 2): `1.0` plus `0.1` for each of the
four text-quality indicators. -/
def quality_score_spec (text : Str) : ℚ :=
  1 + (if text.length > 100 then (1 : ℚ) / 10 else 0)
    + (if text.any (fun c => c = ':' || c = '\n') then (1 : ℚ) / 10 else 0)
    + (if text.any Char.isDigit then (1 : ℚ) / 10 else 0)
    + (if text.any (fun c => c = '$') then (1 : ℚ) / 10 else 0)

/-- Spec-side confidence (§4.3): `min(field_confidence * quality_score, 1.0)`
rounded to two decimals, with `field_confidence` the extracted-field count
over the fixed constant 20. -/
def confidence_spec (text : Str) (r : AnalysisResult) : ℚ :=
  round2 (min ((extractedFields r : ℚ) / 20 * quality_score_spec text) 1)

/-- The dead `try`-body formula is exactly the spec's §4.3 formula. -/
theorem try_formula_eq_spec (text : Str) (r : AnalysisResult) :
    confidence_try_formula text r = confidence_spec text r := by
  simp only [confidence_try_formula, confidence_spec, quality_score_spec]
  split_ifs <;>
    exact congrArg round2 (congrArg (fun x => min x 1) (by ring))

theorem one_le_quality_score_spec (text : Str) : 1 ≤ quality_score_spec text := by
  unfold quality_score_spec
  split_ifs <;> norm_num

theorem quality_score_spec_nonneg (text : Str) : 0 ≤ quality_score_spec text :=
  le_trans (by norm_num) (one_le_quality_score_spec text)

theorem one_le_extractedFields (r : AnalysisResult) : 1 ≤ extractedFields r := by
  unfold extractedFields countBoolF
  omega

theorem not_mem_stripCommas (g : Str) : ',' ∉ stripCommas g := by
  unfold stripCommas
  simp

theorem dropWhile_dropWhile (p : Char → Bool) (l : Str) :
    (l.dropWhile p).dropWhile p = l.dropWhile p := by
  induction l with
  | nil => rfl
  | cons a t ih =>
    by_cases h : p a
    · simp [List.dropWhile, h, ih]
    · simp [List.dropWhile, h]

theorem dropWhile_head_not (p : Char → Bool) (l : Str) :
    l.dropWhile p = [] ∨ ∃ h t, l.dropWhile p = h :: t ∧ p h = false := by
  induction l with
  | nil => exact Or.inl rfl
  | cons a t ih =>
    by_cases h : p a
    · simpa [List.dropWhile, h] using ih
    · exact Or.inr ⟨a, t, by simp [List.dropWhile, h], by simp [h]⟩

/-- The back-strip of `pyStrip`. -/
def stripB (l : Str) : Str := (l.reverse.dropWhile pyIsSpace).reverse

theorem pyStrip_eq (s : Str) : pyStrip s = stripB (s.dropWhile pyIsSpace) := rfl

theorem stripB_prefix (l : Str) : ∃ d, l = stripB l ++ d :=
  ⟨(l.reverse.takeWhile pyIsSpace).reverse, by
    unfold stripB
    conv_lhs => rw [← List.reverse_reverse l,
      ← List.takeWhile_append_dropWhile (p := pyIsSpace) (l := l.reverse)]
    rw [List.reverse_append]⟩

theorem stripB_stripB (l : Str) : stripB (stripB l) = stripB l := by
  unfold stripB
  rw [List.reverse_reverse, dropWhile_dropWhile]

theorem dropWhile_stripB (s : Str) :
    (stripB (s.dropWhile pyIsSpace)).dropWhile pyIsSpace = stripB (s.dropWhile pyIsSpace) := by
  rcases dropWhile_head_not pyIsSpace s with h0 | ⟨h, t, hht, hph⟩
  · rw [h0]
    rfl
  · obtain ⟨d, hd⟩ := stripB_prefix (s.dropWhile pyIsSpace)
    rcases hb : stripB (s.dropWhile pyIsSpace) with _ | ⟨b, bt⟩
    · rfl
    · rw [hb, hht, List.cons_append] at hd
      injection hd with hbh _
      subst hbh
      simp [List.dropWhile_cons, hph]

/-- `pyStrip` is idempotent: an extracted name is already trimmed. -/
theorem pyStrip_pyStrip (s : Str) : pyStrip (pyStrip s) = pyStrip s := by
  rw [pyStrip_eq, pyStrip_eq, dropWhile_stripB, stripB_stripB]

/-! ## Claims C1, C2, C4, C9

The four claims below all assert behaviour that the `null` bug defeats.  The
supporting lemmas and theorems establish what the code actually does (raise
`NameError` / return `0.0`) and exhibit the divergence from the claimed
behaviour. -/

theorem bind_isOk_false {α β : Type} (x : Except PyErr α) (f : α → Except PyErr β)
    (hf : ∀ a, (f a).isOk = false) : (x >>= f).isOk = false := by
  cases x with
  | error e => rfl
  | ok a => exact hf a

/-- The `try` body of `analyze_document` never completes: each bind either
propagates an extractor's `NameError`, or line 81's `UnboundLocalError`
ends the chain. -/
theorem analyze_body_isOk_false (text : Str) : (analyze_body text).isOk = false :=
  bind_isOk_false _ _ (fun _ =>
    bind_isOk_false _ _ (fun _ =>
      bind_isOk_false _ _ (fun _ =>
        bind_isOk_false _ _ (fun _ =>
          bind_isOk_false _ _ (fun _ =>
            bind_isOk_false _ _ (fun _ =>
              bind_isOk_false _ _ (fun _ =>
                bind_isOk_false _ _ (fun _ =>
                  bind_isOk_false _ _ (fun _ =>
                    bind_isOk_false _ _ (fun _ =>
                      bind_isOk_false _ _ (fun _ =>
                        bind_isOk_false _ _ (fun _ =>
                          bind_isOk_false _ _ (fun _ =>
                            bind_isOk_false _ _ (fun _ =>
                              bind_isOk_false _ _ (fun _ =>
                                bind_isOk_false _ _ (fun _ =>
                                  bind_isOk_false _ _ (fun _ =>
                                    bind_isOk_false _ _ (fun _ =>
                                      bind_isOk_false _ _ (fun _ => rfl)))))))))))))))))))

/-- `analyze_document` propagates `NameError` (raised by the `except`
handler's own `null` at line 93) on every input. -/
theorem analyze_document_eq_error (text : Str) :
    analyze_document text = Except.error PyErr.nameError := by
  unfold analyze_document
  have h := analyze_body_isOk_false text
  cases hb : analyze_body text with
  | ok r => rw [hb] at h; exact Bool.noConfusion h
  | error e => rfl

/-- C1 (code bug): the claim says `analyze_document` never propagates an
exception and returns the canonical default record on internal failure.
In fact the `except` handler itself evaluates the undefined name `null`
(line 93) and raises `NameError`, so the function always propagates an
exception and never returns any record — in particular never the default
record the handler was meant to build. -/
theorem analyze_document_always_raises :
    (∀ text, (analyze_body text).isOk = false)
    ∧ (∀ text, analyze_document text = Except.error PyErr.nameError)
    ∧ (∀ text r, analyze_document text ≠ Except.ok r) := by
  refine ⟨analyze_body_isOk_false, analyze_document_eq_error, ?_⟩
  intro text r h
  rw [analyze_document_eq_error text] at h
  exact absurd h (by simp)

/-- C2 (code bug): on the empty input text the claim expects the all-null,
zero-confidence record; the code instead raises `NameError` (line 138's
`return null` inside the classifier, then line 93's `null` in the except
handler) and returns nothing at all. -/
theorem analyze_empty_text_raises :
    analyze_document "".data = Except.error PyErr.nameError
    ∧ (∀ r, analyze_document "".data ≠ Except.ok r) := by
  refine ⟨analyze_document_eq_error _, ?_⟩
  intro r h
  rw [analyze_document_eq_error] at h
  exact absurd h (by simp)

theorem confidence_spec_nonneg (text : Str) (r : AnalysisResult) :
    0 ≤ confidence_spec text r := by
  unfold confidence_spec
  apply round2_nonneg
  have h1 : (0 : ℚ) ≤ (extractedFields r : ℚ) / 20 * quality_score_spec text := by
    have := quality_score_spec_nonneg text
    positivity
  exact le_min h1 (by norm_num)

theorem confidence_spec_le_one (text : Str) (r : AnalysisResult) :
    confidence_spec text r ≤ 1 := by
  unfold confidence_spec
  exact round2_le_one (min_le_right _ _)

theorem confidence_spec_lb (text : Str) (r : AnalysisResult) :
    (5 / 100 : ℚ) ≤ confidence_spec text r := by
  unfold confidence_spec
  have h1 : (1 : ℚ) ≤ (extractedFields r : ℚ) := by
    exact_mod_cast one_le_extractedFields r
  have h2 : (1 / 20 : ℚ) ≤ (extractedFields r : ℚ) / 20 * quality_score_spec text := by
    have h3 := one_le_quality_score_spec text
    nlinarith
  have h4 : (1 / 20 : ℚ) ≤ min ((extractedFields r : ℚ) / 20 * quality_score_spec text) 1 :=
    le_min h2 (by norm_num)
  have h5 := round2_ge (q := min ((extractedFields r : ℚ) / 20 * quality_score_spec text) 1)
    5 (by push_cast; linarith)
  simpa using h5

/-- C4 (code bug): the claim describes the formula of the scorer's `try`
body, but that body's first comparison (line 480, `value is not null`)
raises `NameError`, the scorer's own `except` catches it, and the function
returns `0.0` for every text and record.  The dead body does equal the
claimed formula (which always lies in `[0, 1]`, indeed is at least `0.05`),
so the claim describes the intent and the code never computes it. -/
theorem confidence_score_always_zero :
    (∀ text r, _calculate_confidence_score text r = 0)
    ∧ (∀ text r, confidence_try_formula text r = confidence_spec text r)
    ∧ (∀ text r, 0 ≤ confidence_spec text r ∧ confidence_spec text r ≤ 1)
    ∧ (∀ text r, (5 / 100 : ℚ) ≤ confidence_spec text r)
    ∧ _calculate_confidence_score "".data defaultRecord = 0 := by
  refine ⟨fun text r => rfl, try_formula_eq_spec, ?_, confidence_spec_lb, rfl⟩
  exact fun text r => ⟨confidence_spec_nonneg text r, confidence_spec_le_one text r⟩

/-- C9 (code bug): in the intended counting loop `pets_mentioned` counts
even when `False` (Python's `False` is not `None`, `[]` or `""`), so the
claimed lower bound `round(1/20, 2) = 0.05` holds for the intended formula;
but the loop is dead — line 480 raises `NameError` before any field is
counted — and the real scorer returns `0.0` for every record. -/
theorem pets_counted_scorer_zero :
    countBoolF false = 1
    ∧ (∀ r, 1 ≤ extractedFields r)
    ∧ round2 (1 / 20) = 5 / 100
    ∧ (∀ text r, (5 / 100 : ℚ) ≤ confidence_try_formula text r)
    ∧ (∀ text r, _calculate_confidence_score text r = 0) := by
  have hr : round2 (1 / 20) = 5 / 100 := by
    have h5 : (1 / 20 : ℚ) * 100 = 5 := by norm_num
    rw [round2, h5, rhe]
    norm_num
  refine ⟨rfl, one_le_extractedFields, hr, ?_, fun text r => rfl⟩
  intro text r
  rw [try_formula_eq_spec]
  exact confidence_spec_lb text r

/-! ## Claim C3: currency prefixes of the amount extractors -/

/-- C3 counterexample: the claim says every amount field is prefixed with
`₹` when `₹` occurs anywhere in the input; but `_extract_monthly_rent`
always prefixes `$` (lines 237-238), even when the text contains `₹`. -/
theorem monthly_rent_rupee_counterexample :
    '₹' ∈ "monthly rent: 1,200 pay ₹".data
    ∧ _extract_monthly_rent "monthly rent: 1,200 pay ₹".data = some "$1200".data
    ∧ "$1200".data ≠ "₹1200".data := by
  refine ⟨by decide, by decide, by decide⟩

/-- C3 as amended: every amount extractor returns the matched number with
all commas removed; `_extract_total_amount` and `_extract_tax_amount`
prefix `₹` when `₹` occurs anywhere in the text and `$` otherwise, while
`_extract_monthly_rent` and `_extract_security_deposit` always prefix `$`. -/
theorem amount_currency_prefix_amended (text : Str) :
    (∀ s, _extract_monthly_rent text = some s → ∃ g, s = '$' :: g ∧ ',' ∉ g)
    ∧ (∀ s, _extract_security_deposit text = some s → ∃ g, s = '$' :: g ∧ ',' ∉ g)
    ∧ (∀ s, _extract_total_amount text = some s →
        ∃ g, s = (if '₹' ∈ text then '₹' else '$') :: g ∧ ',' ∉ g)
    ∧ (∀ s, _extract_tax_amount text = some s →
        ∃ g, s = (if '₹' ∈ text then '₹' else '$') :: g ∧ ',' ∉ g) := by
  refine ⟨?_, ?_, ?_, ?_⟩ <;> intro s h
  · simp only [_extract_monthly_rent, Option.map_eq_some'] at h
    obtain ⟨g, _, rfl⟩ := h
    exact ⟨stripCommas g, rfl, not_mem_stripCommas g⟩
  · simp only [_extract_security_deposit, Option.map_eq_some'] at h
    obtain ⟨g, _, rfl⟩ := h
    exact ⟨stripCommas g, rfl, not_mem_stripCommas g⟩
  · simp only [_extract_total_amount, Option.map_eq_some'] at h
    obtain ⟨g, _, rfl⟩ := h
    exact ⟨stripCommas g, by rw [currencySym], not_mem_stripCommas g⟩
  · simp only [_extract_tax_amount, Option.map_eq_some'] at h
    obtain ⟨g, _, rfl⟩ := h
    exact ⟨stripCommas g, by rw [currencySym], not_mem_stripCommas g⟩

/-- Witness for the amended C3 at concrete texts: a rupee invoice total and
a dollar rent. -/
theorem amount_currency_prefix_amended_witness :
    _extract_total_amount "Total ₹4,246.82".data = some "₹4246.82".data
    ∧ (∃ g, "₹4246.82".data = (if '₹' ∈ "Total ₹4,246.82".data then '₹' else '$') :: g
        ∧ ',' ∉ g)
    ∧ _extract_monthly_rent "Monthly Rent: $1,200.00".data = some "$1200.00".data
    ∧ (∃ g, "$1200.00".data = '$' :: g ∧ ',' ∉ g) :=
  ⟨by decide,
   (amount_currency_prefix_amended "Total ₹4,246.82".data).2.2.1 _ (by decide),
   by decide,
   (amount_currency_prefix_amended "Monthly Rent: $1,200.00".data).1 _ (by decide)⟩

/-! ## Claims C6 and C5: payment-status decision list and the classifier -/

/-- Boolean form of `re.search` success. -/
def searchB (r : RE) (t : Str) : Bool := (reSearch false r t).isSome

/-- Existence of a leftmost match of an alternation is the disjunction of
existence for the branches. -/
theorem searchFrom_alt_isSome (ci : Bool) (a b : RE) :
    ∀ (inp : Str) (prev : Option Char),
      (searchFrom ci (.alt a b) prev inp).isSome
        = ((searchFrom ci a prev inp).isSome || (searchFrom ci b prev inp).isSome) := by
  intro inp
  induction inp with
  | nil =>
    intro prev
    rcases hma : mRE ci a [] prev [] (fun rem p cs => some (cs, rem, p)) with _ | ⟨ca, ra, pa⟩ <;>
      rcases hmb : mRE ci b [] prev [] (fun rem p cs => some (cs, rem, p)) with _ | ⟨cb, rb, pb⟩ <;>
        simp [searchFrom, mRE, hma, hmb]
  | cons c rest ih =>
    intro prev
    rcases hma : mRE ci a (c :: rest) prev [] (fun rem p cs => some (cs, rem, p)) with _ | ⟨ca, ra, pa⟩ <;>
      rcases hmb : mRE ci b (c :: rest) prev [] (fun rem p cs => some (cs, rem, p)) with _ | ⟨cb, rb, pb⟩ <;>
        simp [searchFrom, mRE, hma, hmb, ih]

theorem reSearch_alt_isSome (ci : Bool) (a b : RE) (t : Str) :
    (reSearch ci (.alt a b) t).isSome
      = ((reSearch ci a t).isSome || (reSearch ci b t).isSome) :=
  searchFrom_alt_isSome ci a b t none

/-- Claim-side payment-status decision list: the four fixed-priority keyword
groups of §4.2, checked in order, first match wins. -/
def payment_status_spec (text : Str) : Option Str :=
  let tl := pyLower text
  if searchB (bword "paid") tl || searchB (bwords ["payment", "received"]) tl
     || searchB (bword "complete") tl || searchB (bwords ["payment", "made"]) tl
  then some "paid".data
  else if searchB (reCat [wpat ["balance", "due"], .star .space, .opt (.lit '₹'),
                          litStr "0.00"]) tl
       || searchB (reCat [wpat ["balance", "due"], .star .space, .opt (.lit '$'),
                          litStr "0.00"]) tl
  then some "paid".data
  else if searchB (bword "due") tl || searchB (bword "pending") tl
       || searchB (bword "unpaid") tl || searchB (bword "overdue") tl
  then some "due".data
  else if searchB (bword "partial") tl || searchB (bwords ["partially", "paid"]) tl
  then some "partial".data
  else none

/-- C6 (code bug): the four keyword branches implement the claimed
fixed-priority first-match-wins decision list (paid keywords, then the
zero-balance phrase, then due keywords, then partial keywords), but the
final fall-through — `return null`, line 453 — evaluates the undefined name
`null` and raises `NameError` instead of returning the absent value the
claim describes. -/
theorem payment_status_code_bug :
    (∀ text, _extract_payment_status text = liftNull (payment_status_spec text))
    ∧ _extract_payment_status "abc".data = Except.error PyErr.nameError
    ∧ payment_status_spec "abc".data = none := by
  refine ⟨?_, by rfl, by rfl⟩
  intro text
  unfold _extract_payment_status payment_status_spec searchB paidRE zeroBalRE dueRE partRE
  simp only [reSearch_alt_isSome, Bool.or_assoc]
  rw [apply_ite liftNull, apply_ite liftNull, apply_ite liftNull, apply_ite liftNull]
  simp only [liftNull]

/-- Claim-side classifier (§4.1): fast-path invoice override, then
per-type totals with highest-total selection, ties broken in declaration
order (invoice, rental_agreement, utility_bill), null when all zero. -/
def classify_spec (text : Str) : Option Str :=
  let tl := pyLower text
  if searchB (wpat ["tax", "invoice"]) tl || searchB (litStr "invoice#") tl
     || searchB (wpat ["invoice", "number"]) tl
  then some "invoice".data
  else
    let si := patScore tl invoice_patterns
    let sr := patScore tl rental_agreement_patterns
    let su := patScore tl utility_bill_patterns
    if si = 0 ∧ sr = 0 ∧ su = 0 then none
    else if sr ≤ si ∧ su ≤ si then some "invoice".data
    else if su ≤ sr then some "rental_agreement".data
    else some "utility_bill".data

/-- Python's `max(scores, key=scores.get)` over the three-entry score dict,
followed by the positivity check, equals the explicit highest-total /
declaration-order tie-break / all-zero-null rule. -/
theorem pyMaxFirst_chain (si sr su : Nat) :
    (match pyMaxFirst [("invoice".data, si), ("rental_agreement".data, sr),
                       ("utility_bill".data, su)] with
     | some (best, v) => if v > 0 then some best else none
     | none => none)
    = if si = 0 ∧ sr = 0 ∧ su = 0 then none
      else if sr ≤ si ∧ su ≤ si then some "invoice".data
      else if su ≤ sr then some "rental_agreement".data
      else some "utility_bill".data := by
  rcases Nat.lt_or_ge si sr with h1 | h1
  · rcases Nat.lt_or_ge sr su with h2 | h2
    · simp [pyMaxFirst, h1, h2, show ¬(si = 0 ∧ sr = 0 ∧ su = 0) by omega,
            show ¬(sr ≤ si ∧ su ≤ si) by omega, show ¬ su ≤ sr by omega,
            show 0 < su by omega]
    · simp [pyMaxFirst, h1, show ¬ sr < su by omega,
            show ¬(si = 0 ∧ sr = 0 ∧ su = 0) by omega,
            show ¬(sr ≤ si ∧ su ≤ si) by omega, h2, show 0 < sr by omega]
  · rcases Nat.lt_or_ge si su with h2 | h2
    · simp [pyMaxFirst, show ¬ si < sr by omega, h2,
            show ¬(si = 0 ∧ sr = 0 ∧ su = 0) by omega,
            show ¬(sr ≤ si ∧ su ≤ si) by omega, show ¬ su ≤ sr by omega,
            show 0 < su by omega]
    · rcases Nat.eq_zero_or_pos si with h3 | h3
      · simp [pyMaxFirst, show ¬ si < sr by omega, show ¬ si < su by omega,
              show si = 0 ∧ sr = 0 ∧ su = 0 by omega, show ¬ si > 0 by omega]
      · simp [pyMaxFirst, show ¬ si < sr by omega, show ¬ si < su by omega,
              show ¬(si = 0 ∧ sr = 0 ∧ su = 0) by omega,
              show sr ≤ si ∧ su ≤ si by omega, h3]

/-- `liftNull` of the highest-total selection chain: what line 131-138 of
the classifier computes, with the all-zero branch raising. -/
theorem pyMaxFirst_chain_exc (si sr su : Nat) :
    (match pyMaxFirst [("invoice".data, si), ("rental_agreement".data, sr),
                       ("utility_bill".data, su)] with
     | some (best, v) =>
       if v > 0 then Except.ok best else Except.error PyErr.nameError
     | none => Except.error PyErr.nameError)
    = liftNull (if si = 0 ∧ sr = 0 ∧ su = 0 then none
      else if sr ≤ si ∧ su ≤ si then some "invoice".data
      else if su ≤ sr then some "rental_agreement".data
      else some "utility_bill".data) := by
  rw [← pyMaxFirst_chain]
  cases hm : pyMaxFirst [("invoice".data, si), ("rental_agreement".data, sr),
      ("utility_bill".data, su)] with
  | none => rfl
  | some bv =>
    obtain ⟨b, v⟩ := bv
    dsimp only
    rw [apply_ite liftNull]
    split_ifs <;> rfl

/-- C5 (code bug): the classifier implements the claimed algorithm — the
fast-path invoice override, per-type regex-count totals, and selection of
the strictly highest total with declaration-order tie-break — except in the
all-zero case, where `return null` (line 138) raises `NameError` instead of
returning the absent value the claim describes. -/
theorem document_type_code_bug :
    (∀ text, _identify_document_type text = liftNull (classify_spec text))
    ∧ _identify_document_type "hello world".data = Except.error PyErr.nameError
    ∧ classify_spec "hello world".data = none := by
  refine ⟨?_, by rfl, by rfl⟩
  intro text
  unfold _identify_document_type classify_spec searchB fastPathRE
  simp only [reSearch_alt_isSome]
  rw [apply_ite liftNull]
  refine if_congr Iff.rfl rfl ?_
  unfold typeScores
  exact pyMaxFirst_chain_exc _ _ _

/-! ## Claim C8: name-field validation -/

/-- Any name produced by the shared name-extraction loop passed its guard:
length > 2 after stripping, no digits, and (being a `pyStrip` image) it is
already trimmed. -/
theorem nameFrom_some : ∀ (pats : List RE) (text n : Str), nameFrom pats text = some n →
    2 < n.length ∧ n.all (fun c => !c.isDigit) = true ∧ pyStrip n = n := by
  intro pats
  induction pats with
  | nil => intro text n h; simp [nameFrom] at h
  | cons p ps ih =>
    intro text n h
    rw [nameFrom] at h
    rcases hm : reSearchCaps true p text with _ | caps
    · rw [hm] at h
      exact ih text n h
    · rw [hm] at h
      rcases caps with _ | ⟨g, gs⟩
      · exact ih text n h
      · dsimp only at h
        by_cases hcond : 2 < (pyStrip g).length ∧ (pyStrip g).all (fun c => !c.isDigit) = true
        · rw [if_pos hcond] at h
          injection h with h
          subst h
          exact ⟨hcond.1, hcond.2, pyStrip_pyStrip g⟩
        · rw [if_neg hcond] at h
          exact ih text n h

/-- C8: every name field (tenant, landlord, bill-to) is either null or a
trimmed string of length strictly greater than 2 containing no digit. -/
theorem name_fields_filtered (text n : Str)
    (h : _extract_tenant_name text = some n ∨ _extract_landlord_name text = some n
       ∨ _extract_bill_to_name text = some n) :
    2 < n.length ∧ (∀ c ∈ n, c.isDigit = false) ∧ pyStrip n = n := by
  rcases h with h | h | h <;>
    obtain ⟨h1, h2, h3⟩ := nameFrom_some _ text n h <;>
    · simp only [List.all_eq_true, Bool.not_eq_true'] at h2
      exact ⟨h1, h2, h3⟩

/-- Witness for C8 on a concrete rental text. -/
theorem name_fields_filtered_witness :
    _extract_tenant_name "Tenant: Jane Doe\nX".data = some "Jane Doe".data
    ∧ (2 < "Jane Doe".data.length ∧ (∀ c ∈ "Jane Doe".data, c.isDigit = false)
        ∧ pyStrip "Jane Doe".data = "Jane Doe".data) :=
  ⟨by decide,
   name_fields_filtered "Tenant: Jane Doe\nX".data "Jane Doe".data (Or.inl (by decide))⟩

/-! ## Claims C7 and C10: phone-number extraction

To show every emitted phone string is `(xxx) xxx-xxxx` with digit groups of
lengths 3, 3, 4, we prove that a successful match of a pattern whose
capturing groups are all plain digit runs produces captures that are digit
strings of the specified lengths. -/

/-- Syntactic recognition of `\d{n}` bodies: `digitRunLen r = some n` iff
`r` is literally `digitCat n` (all group bodies in the phone patterns have
length at most 8, so a bounded search suffices). -/
def digitRunLen (r : RE) : Option Nat :=
  (List.range 9).findSome? (fun n => if r = digitCat n then some n else none)

theorem digitRunLen_eq_aux :
    ∀ (l : List Nat) (r : RE) (n : Nat),
      l.findSome? (fun m => if r = digitCat m then some m else none) = some n →
      r = digitCat n := by
  intro l
  induction l with
  | nil => intro r n h; simp [List.findSome?] at h
  | cons a t ih =>
    intro r n h
    rw [List.findSome?] at h
    by_cases ha : r = digitCat a
    · rw [if_pos ha] at h
      dsimp at h
      injection h with h
      subst h
      exact ha
    · rw [if_neg ha] at h
      exact ih r n h

theorem digitRunLen_eq {r : RE} {n : Nat} (h : digitRunLen r = some n) : r = digitCat n :=
  digitRunLen_eq_aux _ r n h

/-- The group specification of a pattern: `some ls` when every capturing
group body is a digit run, with `ls` the run lengths in group order
(`none` when some group is of another shape — such patterns are simply not
covered by the conformance theorem). -/
def gspec : RE → Option (List Nat)
  | .eps => some []
  | .cc _ => some []
  | .opt _ => some []
  | .star _ => some []
  | .plus _ => some []
  | .starL _ => some []
  | .plusL _ => some []
  | .wordB => some []
  | .eos => some []
  | .seq a b =>
    match gspec a, gspec b with
    | some x, some y => some (x ++ y)
    | _, _ => none
  | .alt a b =>
    match gspec a, gspec b with
    | some x, some y => if x = y then some x else none
    | _, _ => none
  | .grp r => (digitRunLen r).map (fun n => [n])
  | .look _ => some []

/-- A capture conforming to a digit-run spec: a digit string of the given
length. -/
def capSpec (g : Str) (n : Nat) : Prop := g.length = n ∧ ∀ c ∈ g, c.isDigit = true

theorem tryDescAux_some {f : Nat → Option KRes} {hi fuel : Nat} {v : KRes}
    (h : tryDescAux f hi fuel = some v) : ∃ j, f j = some v := by
  induction fuel generalizing hi with
  | zero => simp [tryDescAux] at h
  | succ m ih =>
    rw [tryDescAux] at h
    rcases orElse_some h with h1 | ⟨_, h2⟩
    · exact ⟨hi, h1⟩
    · exact ih h2

theorem tryAscAux_some {f : Nat → Option KRes} {lo fuel : Nat} {v : KRes}
    (h : tryAscAux f lo fuel = some v) : ∃ j, f j = some v := by
  induction fuel generalizing lo with
  | zero => simp [tryAscAux] at h
  | succ m ih =>
    rw [tryAscAux] at h
    rcases orElse_some h with h1 | ⟨_, h2⟩
    · exact ⟨lo, h1⟩
    · exact ih h2

/-- A successful match of `\d{n}` consumes exactly `n` characters, all
digits, and hands the rest to the continuation with unchanged captures. -/
theorem digitCat_consumes (ci : Bool) :
    ∀ (n : Nat) (inp : Str) (prev : Option Char) (caps : Caps) (k : K) (v : KRes),
      mRE ci (digitCat n) inp prev caps k = some v →
      ∃ p2, n ≤ inp.length ∧ (∀ c ∈ inp.take n, c.isDigit = true)
        ∧ k (inp.drop n) p2 caps = some v := by
  intro n
  induction n with
  | zero =>
    intro inp prev caps k v h
    exact ⟨prev, Nat.zero_le _, by simp, by simpa [digitCat, mRE] using h⟩
  | succ m ih =>
    intro inp prev caps k v h
    simp only [digitCat, mRE] at h
    cases inp with
    | nil => simp at h
    | cons x rest =>
      dsimp at h
      by_cases hx : CC.test ci .digit x
      · rw [if_pos hx] at h
        obtain ⟨p2, hlen, hdig, hk⟩ := ih rest (some x) caps k v h
        refine ⟨p2, Nat.succ_le_succ hlen, ?_, hk⟩
        intro ch hch
        rcases List.mem_cons.mp (by simpa [List.take] using hch) with rfl | hch2
        · exact hx
        · exact hdig ch hch2
      · rw [if_neg hx] at h
        simp at h

/-- Factoring a successful `mRE` run: when every capturing group of `r` is a
digit run, the run reaches its continuation exactly once, with the captures
extended by digit strings of the specified lengths. -/
theorem mRE_factor (ci : Bool) :
    ∀ (r : RE) (ls : List Nat), gspec r = some ls →
    ∀ (inp : Str) (prev : Option Char) (caps : Caps) (k : K) (v : KRes),
      mRE ci r inp prev caps k = some v →
      ∃ rem p2 ext, List.Forall₂ capSpec ext ls ∧ k rem p2 (caps ++ ext) = some v := by
  intro r
  induction r with
  | eps =>
    intro ls hls inp prev caps k v h
    simp only [gspec, Option.some.injEq] at hls
    subst hls
    exact ⟨inp, prev, [], List.Forall₂.nil, by simpa [mRE] using h⟩
  | cc c =>
    intro ls hls inp prev caps k v h
    simp only [gspec, Option.some.injEq] at hls
    subst hls
    simp only [mRE] at h
    cases inp with
    | nil => simp at h
    | cons x rest =>
      dsimp at h
      by_cases hx : CC.test ci c x
      · rw [if_pos hx] at h
        exact ⟨rest, some x, [], List.Forall₂.nil, by simpa using h⟩
      · rw [if_neg hx] at h
        simp at h
  | opt c =>
    intro ls hls inp prev caps k v h
    simp only [gspec, Option.some.injEq] at hls
    subst hls
    simp only [mRE] at h
    rcases orElse_some h with h1 | ⟨_, h2⟩
    · cases inp with
      | nil => simp at h1
      | cons x rest =>
        dsimp at h1
        by_cases hx : CC.test ci c x
        · rw [if_pos hx] at h1
          exact ⟨rest, some x, [], List.Forall₂.nil, by simpa using h1⟩
        · rw [if_neg hx] at h1
          simp at h1
    · exact ⟨inp, prev, [], List.Forall₂.nil, by simpa using h2⟩
  | star c =>
    intro ls hls inp prev caps k v h
    simp only [gspec, Option.some.injEq] at hls
    subst hls
    simp only [mRE] at h
    obtain ⟨j, hj⟩ := tryDescAux_some h
    exact ⟨inp.drop j, lastOr prev (inp.take j), [], List.Forall₂.nil, by simpa using hj⟩
  | plus c =>
    intro ls hls inp prev caps k v h
    simp only [gspec, Option.some.injEq] at hls
    subst hls
    simp only [mRE] at h
    obtain ⟨j, hj⟩ := tryDescAux_some h
    exact ⟨inp.drop j, lastOr prev (inp.take j), [], List.Forall₂.nil, by simpa using hj⟩
  | starL c =>
    intro ls hls inp prev caps k v h
    simp only [gspec, Option.some.injEq] at hls
    subst hls
    simp only [mRE] at h
    obtain ⟨j, hj⟩ := tryAscAux_some h
    exact ⟨inp.drop j, lastOr prev (inp.take j), [], List.Forall₂.nil, by simpa using hj⟩
  | plusL c =>
    intro ls hls inp prev caps k v h
    simp only [gspec, Option.some.injEq] at hls
    subst hls
    simp only [mRE] at h
    obtain ⟨j, hj⟩ := tryAscAux_some h
    exact ⟨inp.drop j, lastOr prev (inp.take j), [], List.Forall₂.nil, by simpa using hj⟩
  | seq a b iha ihb =>
    intro ls hls inp prev caps k v h
    simp only [gspec] at hls
    rcases ha : gspec a with _ | la <;> rcases hb : gspec b with _ | lb <;>
      rw [ha, hb] at hls <;> dsimp at hls
    · exact absurd hls (by simp)
    · exact absurd hls (by simp)
    · exact absurd hls (by simp)
    · injection hls with hls
      subst hls
      rw [mRE] at h
      obtain ⟨rem1, p1, ext1, hf1, hk1⟩ := iha la ha inp prev caps _ v h
      obtain ⟨rem2, p2, ext2, hf2, hk2⟩ := ihb lb hb rem1 p1 (caps ++ ext1) k v hk1
      exact ⟨rem2, p2, ext1 ++ ext2, List.rel_append hf1 hf2, by rwa [List.append_assoc] at hk2⟩
  | alt a b iha ihb =>
    intro ls hls inp prev caps k v h
    simp only [gspec] at hls
    rcases ha : gspec a with _ | la <;> rcases hb : gspec b with _ | lb <;>
      rw [ha, hb] at hls <;> dsimp at hls
    · exact absurd hls (by simp)
    · exact absurd hls (by simp)
    · exact absurd hls (by simp)
    · by_cases hab : la = lb
      · rw [if_pos hab] at hls
        injection hls with hls
        subst hls
        subst hab
        rw [mRE] at h
        rcases orElse_some h with h1 | ⟨_, h2⟩
        · exact iha la ha inp prev caps k v h1
        · exact ihb la hb inp prev caps k v h2
      · rw [if_neg hab] at hls
        exact absurd hls (by simp)
  | grp rb ihrb =>
    intro ls hls inp prev caps k v h
    simp only [gspec, Option.map_eq_some'] at hls
    obtain ⟨n, hn, rfl⟩ := hls
    have hrb := digitRunLen_eq hn
    subst hrb
    rw [mRE] at h
    obtain ⟨p2, hlen, hdig, hk⟩ := digitCat_consumes ci n inp prev caps _ v h
    have hdl : inp.length - (inp.drop n).length = n := by
      rw [List.length_drop]
      omega
    rw [hdl] at hk
    refine ⟨inp.drop n, p2, [inp.take n], ?_, hk⟩
    exact List.Forall₂.cons ⟨by simp [List.length_take]; omega, hdig⟩ List.Forall₂.nil
  | look rb ihrb =>
    intro ls hls inp prev caps k v h
    simp only [gspec, Option.some.injEq] at hls
    subst hls
    rw [mRE] at h
    cases hin : mRE ci rb inp prev [] (fun rem p cs => some (cs, rem, p)) with
    | none => rw [hin] at h; simp at h
    | some w =>
      rw [hin] at h
      dsimp at h
      exact ⟨inp, prev, [], List.Forall₂.nil, by simpa using h⟩
  | wordB =>
    intro ls hls inp prev caps k v h
    simp only [gspec, Option.some.injEq] at hls
    subst hls
    rw [mRE] at h
    by_cases hw : atWordB prev inp
    · rw [if_pos hw] at h
      exact ⟨inp, prev, [], List.Forall₂.nil, by simpa using h⟩
    · rw [if_neg hw] at h
      simp at h
  | eos =>
    intro ls hls inp prev caps k v h
    simp only [gspec, Option.some.injEq] at hls
    subst hls
    rw [mRE] at h
    by_cases he : inp = [] ∨ inp = ['\n']
    · rw [if_pos he] at h
      exact ⟨inp, prev, [], List.Forall₂.nil, by simpa using h⟩
    · rw [if_neg he] at h
      simp at h

/-- Leftmost-search results conform to the pattern's group specification. -/
theorem searchFrom_conform (ci : Bool) (r : RE) (ls : List Nat) (hg : gspec r = some ls) :
    ∀ (inp : Str) (prev : Option Char) (caps : Caps) (rem : Str) (p2 : Option Char) (L : Nat),
      searchFrom ci r prev inp = some (caps, rem, p2, L) →
      List.Forall₂ capSpec caps ls := by
  intro inp
  induction inp with
  | nil =>
    intro prev caps rem p2 L h
    rw [searchFrom] at h
    cases hm : mRE ci r [] prev [] (fun rem p cs => some (cs, rem, p)) with
    | none => rw [hm] at h; simp at h
    | some w =>
      rw [hm] at h
      obtain ⟨c0, r0, p0⟩ := w
      dsimp at h
      injection h with h
      obtain ⟨rem9, p9, ext, hf, hk⟩ := mRE_factor ci r ls hg [] prev [] _ _ hm
      simp only [List.nil_append] at hk
      injection hk with hk
      obtain ⟨h1, _⟩ := Prod.mk.injEq .. ▸ hk
      · cases h
        cases hk
        exact hf
  | cons c rest ih =>
    intro prev caps rem p2 L h
    rw [searchFrom] at h
    cases hm : mRE ci r (c :: rest) prev [] (fun rem p cs => some (cs, rem, p)) with
    | none =>
      rw [hm] at h
      exact ih (some c) caps rem p2 L h
    | some w =>
      rw [hm] at h
      obtain ⟨c0, r0, p0⟩ := w
      dsimp at h
      injection h with h
      obtain ⟨rem9, p9, ext, hf, hk⟩ := mRE_factor ci r ls hg (c :: rest) prev [] _ _ hm
      simp only [List.nil_append] at hk
      injection hk with hk
      cases h
      cases hk
      exact hf

/-- Every capture list produced by `finditer` conforms to the group spec. -/
theorem findIterAux_conform (ci : Bool) (r : RE) (ls : List Nat) (hg : gspec r = some ls) :
    ∀ (fuel : Nat) (prev : Option Char) (inp : Str) (caps : Caps),
      caps ∈ findIterAux ci r fuel prev inp →
      List.Forall₂ capSpec caps ls := by
  intro fuel
  induction fuel with
  | zero => intro prev inp caps h; simp [findIterAux] at h
  | succ m ih =>
    intro prev inp caps h
    rw [findIterAux] at h
    cases hs : searchFrom ci r prev inp with
    | none => rw [hs] at h; simp at h
    | some w =>
      obtain ⟨c0, rem, p, L⟩ := w
      rw [hs] at h
      dsimp at h
      by_cases hL : L = 0
      · rw [if_pos hL] at h
        cases rem with
        | nil =>
          rcases List.mem_singleton.mp h with rfl
          exact searchFrom_conform ci r ls hg inp prev caps [] p L hs
        | cons c2 r2 =>
          rcases List.mem_cons.mp h with rfl | h2
          · exact searchFrom_conform ci r ls hg inp prev caps (c2 :: r2) p L hs
          · exact ih (some c2) r2 caps h2
      · rw [if_neg hL] at h
        rcases List.mem_cons.mp h with rfl | h2
        · exact searchFrom_conform ci r ls hg inp prev caps rem p L hs
        · exact ih p rem caps h2

theorem reFindIter_conform (ci : Bool) (r : RE) (ls : List Nat) (hg : gspec r = some ls)
    (text : Str) (caps : Caps) (h : caps ∈ reFindIter ci r text) :
    List.Forall₂ capSpec caps ls :=
  findIterAux_conform ci r ls hg _ none text caps h

/-- The per-match formatter of `_extract_phone_numbers`: format when the
pattern has exactly three groups. -/
def fmtCaps : Caps → Option Str
  | [a, b, c] => some (phoneFormat a b c)
  | _ => none

/-- Claim-side match stream: all five pattern passes in order, each match
formatted, before deduplication. -/
def phoneMatchStream (text : Str) : List Str :=
  (phone_patterns.map (fun p => (reFindIter false p text).filterMap fmtCaps)).flatten

/-- Claim-side deduplication keeping first occurrences. -/
def dedupKeepFirst (l : List Str) : List Str := l.foldl insertIfAbsent []

theorem foldl_insertIfAbsent_nodup :
    ∀ (l : List Str) (acc : List Str), acc.Nodup → (l.foldl insertIfAbsent acc).Nodup := by
  intro l
  induction l with
  | nil => intro acc h; exact h
  | cons x t ih =>
    intro acc h
    rw [List.foldl_cons]
    apply ih
    unfold insertIfAbsent
    by_cases hx : x ∈ acc
    · rw [if_pos hx]; exact h
    · rw [if_neg hx]
      simp [List.nodup_append, h, hx]

theorem mem_foldl_insertIfAbsent :
    ∀ (l : List Str) (acc : List Str) (s : Str),
      s ∈ l.foldl insertIfAbsent acc → s ∈ acc ∨ s ∈ l := by
  intro l
  induction l with
  | nil => intro acc s h; exact Or.inl h
  | cons x t ih =>
    intro acc s h
    rw [List.foldl_cons] at h
    rcases ih _ s h with h1 | h1
    · unfold insertIfAbsent at h1
      by_cases hx : x ∈ acc
      · rw [if_pos hx] at h1; exact Or.inl h1
      · rw [if_neg hx] at h1
        rcases List.mem_append.mp h1 with h2 | h2
        · exact Or.inl h2
        · exact Or.inr (by simp [List.mem_singleton.mp h2])
    · exact Or.inr (List.mem_cons_of_mem x h1)

/-- The inner accumulation loop of `_extract_phone_numbers` over one
pattern's matches is insertion of the formatted matches. -/
theorem inner_fold_eq (ms : List Caps) :
    ∀ (acc : List Str),
      ms.foldl
        (fun acc caps =>
          match caps with
          | [a, b, c] => insertIfAbsent acc (phoneFormat a b c)
          | _ => acc)
        acc
      = (ms.filterMap fmtCaps).foldl insertIfAbsent acc := by
  induction ms with
  | nil => intro acc; rfl
  | cons caps t ih =>
    intro acc
    rcases caps with _ | ⟨a, _ | ⟨b, _ | ⟨c, _ | ⟨d, u⟩⟩⟩⟩ <;>
      simp [List.foldl_cons, List.filterMap_cons, fmtCaps, ih]

theorem outer_fold_eq (text : Str) :
    ∀ (pats : List RE) (acc : List Str),
      pats.foldl
        (fun acc p =>
          (reFindIter false p text).foldl
            (fun acc caps =>
              match caps with
              | [a, b, c] => insertIfAbsent acc (phoneFormat a b c)
              | _ => acc)
            acc)
        acc
      = ((pats.map (fun p => (reFindIter false p text).filterMap fmtCaps)).flatten).foldl
          insertIfAbsent acc := by
  intro pats
  induction pats with
  | nil => intro acc; rfl
  | cons p t ih =>
    intro acc
    simp only [List.foldl_cons, List.map_cons, List.flatten_cons, List.foldl_append]
    rw [inner_fold_eq]
    exact ih _

/-- The whole extractor is the deduplication of the shared match stream. -/
theorem extract_phone_numbers_eq (text : Str) :
    _extract_phone_numbers text = dedupKeepFirst (phoneMatchStream text) := by
  unfold _extract_phone_numbers dedupKeepFirst phoneMatchStream
  exact outer_fold_eq text phone_patterns []

theorem forall₂_digits {caps : Caps} (h : List.Forall₂ capSpec caps [3, 3, 4]) :
    ∃ a b c, caps = [a, b, c] ∧ capSpec a 3 ∧ capSpec b 3 ∧ capSpec c 4 := by
  cases h with
  | cons ha h2 =>
    cases h2 with
    | cons hb h3 =>
      cases h3 with
      | cons hc h4 =>
        cases h4
        exact ⟨_, _, _, rfl, ha, hb, hc⟩

/-- C7: the phone list contains no duplicates, is exactly the first-seen-order
deduplication of the shared five-pass match stream, and every entry is a
normalized `(xxx) xxx-xxxx` string (digit groups of lengths 3, 3, 4). -/
theorem phone_numbers_nodup_order_format (text : Str) :
    (_extract_phone_numbers text).Nodup
    ∧ _extract_phone_numbers text = dedupKeepFirst (phoneMatchStream text)
    ∧ ∀ s ∈ _extract_phone_numbers text,
        ∃ a b c, a.length = 3 ∧ b.length = 3 ∧ c.length = 4
          ∧ (∀ x ∈ a, x.isDigit = true) ∧ (∀ x ∈ b, x.isDigit = true)
          ∧ (∀ x ∈ c, x.isDigit = true) ∧ s = phoneFormat a b c := by
  have heq := extract_phone_numbers_eq text
  refine ⟨?_, heq, ?_⟩
  · rw [heq]
    exact foldl_insertIfAbsent_nodup _ [] List.nodup_nil
  · intro s hs
    rw [heq] at hs
    rcases mem_foldl_insertIfAbsent _ [] s hs with h0 | h1
    · simp at h0
    · unfold phoneMatchStream at h1
      rcases List.mem_flatten.mp h1 with ⟨sub, hsub, hmem⟩
      rcases List.mem_map.mp hsub with ⟨p, hp, rfl⟩
      rcases List.mem_filterMap.mp hmem with ⟨caps, hcaps, hfm⟩
      have hg : gspec p = some [3, 3, 4] := by
        have hal : ∀ q ∈ phone_patterns, gspec q = some [3, 3, 4] := by decide
        exact hal p hp
      have hconf := reFindIter_conform false p [3, 3, 4] hg text caps hcaps
      obtain ⟨a, b, c, rfl, ha, hb, hc⟩ := forall₂_digits hconf
      refine ⟨a, b, c, ha.1, hb.1, hc.1, ha.2, hb.2, hc.2, ?_⟩
      unfold fmtCaps at hfm
      dsimp at hfm
      injection hfm with hfm
      exact hfm.symm

/-- Witness for C7 at a concrete text (pattern 2 and pattern 5 both match,
deduplicated to a single normalized entry). -/
theorem phone_numbers_nodup_order_format_witness :
    _extract_phone_numbers "call 555-123-4567".data = ["(555) 123-4567".data]
    ∧ (∃ a b c, a.length = 3 ∧ b.length = 3 ∧ c.length = 4
        ∧ (∀ x ∈ a, x.isDigit = true) ∧ (∀ x ∈ b, x.isDigit = true)
        ∧ (∀ x ∈ c, x.isDigit = true) ∧ "(555) 123-4567".data = phoneFormat a b c) :=
  ⟨by decide,
   (phone_numbers_nodup_order_format "call 555-123-4567".data).2.2
     "(555) 123-4567".data (by decide)⟩

/-- C10: the permissive fifth phone pattern matches inside a bare digit run:
on an invoice number of 13 digits the extractor returns a non-empty list
whose entry is the first ten digits of the run reformatted as
`(xxx) xxx-xxxx`, even though the text contains no phone number. -/
theorem bare_digit_run_phone_match :
    "INVOICE# : 1025260110273".data = "INVOICE# : ".data ++ "1025260110273".data
    ∧ (∀ c ∈ "1025260110273".data, c.isDigit = true)
    ∧ ("1025260110273".data).length = 13
    ∧ _extract_phone_numbers "INVOICE# : 1025260110273".data = ["(102) 526-0110".data]
    ∧ "(102) 526-0110".data = phoneFormat "102".data "526".data "0110".data :=
  ⟨by decide, by decide, by decide, by decide, by decide⟩

/-! ## Sanity checks: the spec's §8 scenarios evaluated on the embedding -/

example : _extract_payment_status "Balance Due ₹0.00".data = Except.ok "paid".data := by rfl

example : _extract_payment_status "Payment Status: Due".data = Except.ok "due".data := by rfl

example : _identify_document_type "LEASE AGREEMENT landlord tenant monthly rent".data
    = Except.ok "rental_agreement".data := by rfl

example : _identify_document_type "TAX INVOICE".data = Except.ok "invoice".data := by rfl

example : analyze_document "Tenant: Jane Doe".data = Except.error PyErr.nameError := by rfl

example : _extract_pin_code "Pin Code: 600127 Tamil Nadu".data = some "600127".data := by decide

example : _extract_invoice_number "INVOICE# : 1025260110273".data
    = some "1025260110273".data := by decide

example : _extract_invoice_date "DATE : 12 Jun 2025".data = some "12 Jun 2025".data := by decide

example : _extract_tax_amount "IGST18 (18%) 647.82 Total ₹4,246.82".data
    = some "₹647.82".data := by decide

example : _extract_lease_start_date "Lease Start Date: January 1, 2024".data
    = some "January 1, 2024".data := by decide

example : _check_pets_mentioned "no pets".data = true := by decide

example : _check_pets_mentioned "carpet".data = false := by decide

example : _extract_landlord_name "Landlord: John Smith\nAddress: 456 Oak".data
    = some "John Smith".data := by decide
